import Mathlib

/-!
Verification of the PR-analysis repository (collector `pull-requests.py` and
reporter `pr-graphs.py`) against its natural-language specification.

The collector is embedded as a pure function over an input snapshot: the
GitHub API is modelled by giving each open PR its raw attributes (`PRInput`)
together with the outcome that the branch-lookup-and-compare step would have
(`Except String Comparison`, mirroring the `try`/`except` around
`repo.get_branch` / `repo.compare`).  The reporter is embedded as functions
over lists of row records; pandas multi-column `sort_values` and
`nsmallest`/`nlargest` are modelled with the stable `List.mergeSort`
(pandas uses `np.lexsort`, a stable sort, for multi-key sorting, and
`nsmallest`/`nlargest` keep first occurrences of ties).
-/

/-- Result of `repo.compare(MAIN_BRANCH, pr.head.ref)`: the GitHub compare
endpoint reports the two divergence counts, which are non-negative by type. -/
structure Comparison where
  behind_by : Nat
  ahead_by : Nat
deriving DecidableEq, Repr

/-- Raw attributes of one open PR as delivered by the GitHub API
(`pr.<attr>` accesses in `fetch_pull_requests`). -/
structure PRInput where
  id : Nat
  number : Nat
  title : String
  user : String
  state : String
  created_at : Int
  updated_at : Int
  closed_at : Option Int
  merged_at : Option Int
  merge_commit_sha : Option String
  additions : Nat
  deletions : Nat
  changed_files : Nat
  comments : Nat
  review_comments : Nat
  labels : List String
  draft : Bool
  locked : Bool
  head_ref : String
  head_repo_fork : Bool
  head_repo_full_name : String
deriving DecidableEq, Repr

/-- The flat record (`pr_data` dict) the collector appends to `pr_list`
for each open PR (src/pull-requests.py lines 67-96). -/
structure PRRecord where
  id : Nat
  number : Nat
  title : String
  user : String
  state : String
  created_at : Int
  updated_at : Int
  closed_at : Option Int
  merged_at : Option Int
  merge_commit_sha : Option String
  additions : Nat
  deletions : Nat
  changed_files : Nat
  comments : Nat
  review_comments : Nat
  labels : List String
  num_labels : Nat
  commits_behind_main : Option Nat
  commits_ahead_main : Option Nat
  lines_changed : Nat
  time_open_days : Int
  is_merged : Bool
  is_forked : Bool
  source_repo : Option String
  is_draft : Bool
  is_locked : Bool
  is_needs_qa : Bool
deriving DecidableEq, Repr

/-- Python `str.lower()` as used in the needs-QA label test: lowercase the
string character by character. -/
def pyLower (s : String) : String := String.mk (s.data.map Char.toLower)

/-- The body of the collection loop (src/pull-requests.py lines 50-97):
skip the branch comparison for forked PRs, otherwise use the outcome of the
guarded `get_branch`/`compare` calls; an exception leaves `comparison = None`.
`now` is the clock reading used for `time_open`; `.fdiv 86400` models
`timedelta.days`, which floors. -/
def processPR (now : Int) (pr : PRInput) (cmp : Except String Comparison) : PRRecord :=
  let is_forked := pr.head_repo_fork
  let comparison : Option Comparison :=
    if is_forked then none
    else
      match cmp with
      | Except.ok c => some c
      | Except.error _ => none
  let time_open := now - pr.created_at
  { id := pr.id
    number := pr.number
    title := pr.title
    user := pr.user
    state := pr.state
    created_at := pr.created_at
    updated_at := pr.updated_at
    closed_at := pr.closed_at
    merged_at := pr.merged_at
    merge_commit_sha := pr.merge_commit_sha
    additions := pr.additions
    deletions := pr.deletions
    changed_files := pr.changed_files
    comments := pr.comments
    review_comments := pr.review_comments
    labels := pr.labels
    num_labels := pr.labels.length
    commits_behind_main := comparison.map Comparison.behind_by
    commits_ahead_main := comparison.map Comparison.ahead_by
    lines_changed := pr.additions + pr.deletions
    time_open_days := time_open.fdiv 86400
    is_merged := pr.merged_at.isSome
    is_forked := is_forked
    source_repo := if is_forked then some pr.head_repo_full_name else none
    is_draft := pr.draft
    is_locked := pr.locked
    is_needs_qa := pr.labels.any (fun label => pyLower label == "needs qa") }

/-- The message printed by the `except` branch when the branch lookup or
comparison for a non-forked PR raises (src/pull-requests.py line 63). -/
def compareErrorLog (pr : PRInput) (e : String) : String :=
  "PR#" ++ toString pr.id ++ ": [" ++ pr.title ++ "]\n\tError fetching branch [" ++
    pr.head_ref ++ "] - may have come from a forked repo:\n\t" ++ e

/-- Console output of the loop body for one PR: exactly one error line when a
non-forked PR's comparison fails, nothing otherwise. -/
def processLog (pr : PRInput) (cmp : Except String Comparison) : List String :=
  if pr.head_repo_fork then []
  else
    match cmp with
    | Except.ok _ => []
    | Except.error e => [compareErrorLog pr e]

/-- The collection loop of `fetch_pull_requests`: one record appended per
open PR, in order, together with the error lines printed along the way.
The `try`/`except` lives inside the loop body, so the recursion is total:
no comparison outcome can abort the traversal. -/
def fetch_pull_requests (now : Int) :
    List (PRInput × Except String Comparison) → List PRRecord × List String
  | [] => ([], [])
  | p :: rest =>
    let record := processPR now p.1 p.2
    let logs := processLog p.1 p.2
    let tail := fetch_pull_requests now rest
    (record :: tail.1, logs ++ tail.2)

/-- Python truthiness of an optional string (`not GITHUB_TOKEN`,
`args.repo if args.repo else REPO_NAME`): `None` and `""` are falsy. -/
def pyTruthy (s : Option String) : Bool :=
  match s with
  | none => false
  | some v => !(v == "")

/-- `a if a else b` for optional strings. -/
def pyOrElse (a b : Option String) : Option String :=
  if pyTruthy a then a else b

/-- What the collector's `main` does after argument parsing: either the
fatal configuration report, or a collection attempt on the resolved
repository name and branch. -/
inductive MainAction where
  | errorExit (msg : String)
  | collect (repo_name : Option String) (main_branch : String)
deriving DecidableEq, Repr

/-- Branch-name resolution in `main`: `args.branch if args.branch else
MAIN_BRANCH`, where `MAIN_BRANCH = os.getenv("MAIN_BRANCH", "main")`. -/
def resolveBranch (branch_env arg_branch : Option String) : String :=
  let mainBranch := branch_env.getD "main"
  match arg_branch with
  | some s => if s == "" then mainBranch else s
  | none => mainBranch

/-- Startup logic of the collector's `main` (src/pull-requests.py lines
177-197): resolve overrides, then check `if not GITHUB_TOKEN` — the only
configuration guard — and otherwise proceed to `fetch_pull_requests` with
the resolved (possibly `None`) repository name. -/
def mainStartup (github_token repo_env branch_env arg_repo arg_branch : Option String) :
    MainAction :=
  let repo_name := pyOrElse arg_repo repo_env
  let main_branch := resolveBranch branch_env arg_branch
  if !(pyTruthy github_token) then
    MainAction.errorExit "Error: Missing GITHUB_TOKEN (via .env file)"
  else
    MainAction.collect repo_name main_branch

/-- Sample PR input used by concrete witnesses. -/
def mkPR (n : Nat) (labels : List String) (fork : Bool) : PRInput :=
  { id := n
    number := n
    title := "title"
    user := "user"
    state := "open"
    created_at := 0
    updated_at := 0
    closed_at := none
    merged_at := none
    merge_commit_sha := none
    additions := 1
    deletions := 2
    changed_files := 1
    comments := 0
    review_comments := 0
    labels := labels
    draft := false
    locked := false
    head_ref := "branch"
    head_repo_fork := fork
    head_repo_full_name := "owner/fork" }

theorem fetch_length (now : Int) (prs : List (PRInput × Except String Comparison)) :
    (fetch_pull_requests now prs).1.length = prs.length := by
  induction prs with
  | nil => rfl
  | cons p rest ih => simp [fetch_pull_requests, ih]

theorem fetch_records (now : Int) (prs : List (PRInput × Except String Comparison)) :
    (fetch_pull_requests now prs).1 = prs.map (fun p => processPR now p.1 p.2) := by
  induction prs with
  | nil => rfl
  | cons p rest ih => simp [fetch_pull_requests, ih]

theorem fetch_log_mem (now : Int) (prs : List (PRInput × Except String Comparison))
    (pr : PRInput) (e : String) (hmem : (pr, Except.error e) ∈ prs)
    (hfork : pr.head_repo_fork = false) :
    compareErrorLog pr e ∈ (fetch_pull_requests now prs).2 := by
  induction prs with
  | nil => cases hmem
  | cons p rest ih =>
    rcases List.mem_cons.mp hmem with heq | htail
    · subst heq
      simp [fetch_pull_requests, processLog, hfork]
    · have := ih htail
      simp only [fetch_pull_requests, List.mem_append]
      exact Or.inr this

/-- Claim C4: a failing branch lookup or comparison for one non-forked PR is
caught: the run still produces one record per input PR, the offending PR's
identity and the underlying error appear in the console log, and that PR's
record has null divergence fields — it never aborts the collection run. -/
theorem c4_failure_is_isolated (now : Int)
    (prs : List (PRInput × Except String Comparison)) (pr : PRInput) (e : String)
    (hfork : pr.head_repo_fork = false) (hmem : (pr, Except.error e) ∈ prs) :
    (fetch_pull_requests now prs).1.length = prs.length ∧
    compareErrorLog pr e ∈ (fetch_pull_requests now prs).2 ∧
    processPR now pr (Except.error e) ∈ (fetch_pull_requests now prs).1 ∧
    (processPR now pr (Except.error e)).commits_behind_main = none ∧
    (processPR now pr (Except.error e)).commits_ahead_main = none := by
  refine ⟨fetch_length now prs, fetch_log_mem now prs pr e hmem hfork, ?_, ?_, ?_⟩
  · rw [fetch_records]
    exact List.mem_map.mpr ⟨(pr, Except.error e), hmem, rfl⟩
  · simp [processPR, hfork]
  · simp [processPR, hfork]

theorem c4_failure_is_isolated_witness :
    (fetch_pull_requests 0 [(mkPR 1 [] false, Except.error "HTTP 404"),
        (mkPR 2 [] false, Except.ok ⟨3, 4⟩)]).1.length = 2 ∧
    compareErrorLog (mkPR 1 [] false) "HTTP 404" ∈
      (fetch_pull_requests 0 [(mkPR 1 [] false, Except.error "HTTP 404"),
        (mkPR 2 [] false, Except.ok ⟨3, 4⟩)]).2 ∧
    processPR 0 (mkPR 1 [] false) (Except.error "HTTP 404") ∈
      (fetch_pull_requests 0 [(mkPR 1 [] false, Except.error "HTTP 404"),
        (mkPR 2 [] false, Except.ok ⟨3, 4⟩)]).1 ∧
    (processPR 0 (mkPR 1 [] false) (Except.error "HTTP 404")).commits_behind_main = none ∧
    (processPR 0 (mkPR 1 [] false) (Except.error "HTTP 404")).commits_ahead_main = none := by
  have h := c4_failure_is_isolated 0
    [(mkPR 1 [] false, Except.error "HTTP 404"), (mkPR 2 [] false, Except.ok ⟨3, 4⟩)]
    (mkPR 1 [] false) "HTTP 404" rfl (List.mem_cons_self _ _)
  exact ⟨h.1, h.2.1, h.2.2.1, h.2.2.2.1, h.2.2.2.2⟩

/-- Claim C5: a forked PR's record is produced without consulting the branch
comparison at all (the record is the same whatever the comparison oracle
would have answered), has null divergence fields, and carries the source
repository name; a non-forked PR with a successful comparison gets both
divergence counts (natural numbers, hence non-negative) and a null
`source_repo`. -/
theorem c5_fork_and_direct_records (now : Int) (pr : PRInput)
    (cmp : Except String Comparison) :
    (pr.head_repo_fork = true →
      (processPR now pr cmp).commits_behind_main = none ∧
      (processPR now pr cmp).commits_ahead_main = none ∧
      (processPR now pr cmp).source_repo = some pr.head_repo_full_name ∧
      ∀ cmp2, processPR now pr cmp2 = processPR now pr cmp) ∧
    (∀ c, pr.head_repo_fork = false → cmp = Except.ok c →
      (processPR now pr cmp).commits_behind_main = some c.behind_by ∧
      (processPR now pr cmp).commits_ahead_main = some c.ahead_by ∧
      (processPR now pr cmp).source_repo = none) := by
  constructor
  · intro hf
    refine ⟨by simp [processPR, hf], by simp [processPR, hf], by simp [processPR, hf], ?_⟩
    intro cmp2
    simp [processPR, hf]
  · intro c hf hok
    subst hok
    exact ⟨by simp [processPR, hf], by simp [processPR, hf], by simp [processPR, hf]⟩

theorem c5_fork_and_direct_records_witness :
    (processPR 0 (mkPR 1 [] true) (Except.error "x")).commits_behind_main = none ∧
    (processPR 0 (mkPR 1 [] true) (Except.error "x")).commits_ahead_main = none ∧
    (processPR 0 (mkPR 1 [] true) (Except.error "x")).source_repo = some "owner/fork" ∧
    processPR 0 (mkPR 1 [] true) (Except.ok ⟨7, 8⟩) =
      processPR 0 (mkPR 1 [] true) (Except.error "x") ∧
    (processPR 0 (mkPR 2 [] false) (Except.ok ⟨7, 8⟩)).commits_behind_main = some 7 ∧
    (processPR 0 (mkPR 2 [] false) (Except.ok ⟨7, 8⟩)).commits_ahead_main = some 8 ∧
    (processPR 0 (mkPR 2 [] false) (Except.ok ⟨7, 8⟩)).source_repo = none := by
  have h1 := (c5_fork_and_direct_records 0 (mkPR 1 [] true) (Except.error "x")).1 rfl
  have h2 := (c5_fork_and_direct_records 0 (mkPR 2 [] false) (Except.ok ⟨7, 8⟩)).2 ⟨7, 8⟩ rfl rfl
  exact ⟨h1.1, h1.2.1, h1.2.2.1, h1.2.2.2 (Except.ok ⟨7, 8⟩), h2.1, h2.2.1, h2.2.2⟩

/-- Claim C10: whenever a collected record has `is_needs_qa` true, some label
of the record lowercases to the literal `"needs qa"` and hence the record has
at least one label; a record with an empty label set never has the flag. -/
theorem c10_needs_qa_implies_label (now : Int) (pr : PRInput)
    (cmp : Except String Comparison) :
    ((processPR now pr cmp).is_needs_qa = true →
      (∃ l ∈ (processPR now pr cmp).labels, pyLower l = "needs qa") ∧
      1 ≤ (processPR now pr cmp).num_labels) ∧
    ((processPR now pr cmp).labels = [] → (processPR now pr cmp).is_needs_qa = false) := by
  constructor
  · intro h
    simp only [processPR, List.any_eq_true, beq_iff_eq] at h
    obtain ⟨l, hl, hlow⟩ := h
    constructor
    · exact ⟨l, hl, hlow⟩
    · have : pr.labels ≠ [] := by
        intro hnil
        rw [hnil] at hl
        cases hl
      simpa [processPR, Nat.succ_le, List.length_pos] using this
  · intro h
    simp only [processPR] at h ⊢
    rw [h]
    rfl

theorem c10_needs_qa_implies_label_witness :
    (∃ l ∈ (processPR 0 (mkPR 3 ["Needs QA"] false) (Except.ok ⟨0, 0⟩)).labels,
      pyLower l = "needs qa") ∧
    1 ≤ (processPR 0 (mkPR 3 ["Needs QA"] false) (Except.ok ⟨0, 0⟩)).num_labels ∧
    (processPR 0 (mkPR 4 [] false) (Except.ok ⟨0, 0⟩)).is_needs_qa = false := by
  have h := (c10_needs_qa_implies_label 0 (mkPR 3 ["Needs QA"] false) (Except.ok ⟨0, 0⟩)).1
    (by decide)
  have h2 := (c10_needs_qa_implies_label 0 (mkPR 4 [] false) (Except.ok ⟨0, 0⟩)).2 rfl
  exact ⟨h.1, h.2, h2⟩

/-- Claim C3 counterexample: with a credential present but the repository
identifier absent everywhere (no environment value, no CLI override, so the
resolved repository name is `None`), the collector's startup does not report
and exit — it proceeds to the collection attempt.  The only configuration
guard in `main` is `if not GITHUB_TOKEN`. -/
theorem c3_counterexample :
    pyOrElse none none = none ∧
    mainStartup (some "secret") none none none none = MainAction.collect none "main" :=
  ⟨rfl, by decide⟩

/-- Claim C3 (amended): a missing or empty API credential is reported and the
program exits before any collection; the repository identifier is not
checked — with a credential present, startup always proceeds to the
collection attempt, even when the resolved repository name is `None`. -/
theorem c3_token_guard_only (github_token repo_env branch_env arg_repo arg_branch :
    Option String) :
    (pyTruthy github_token = false →
      mainStartup github_token repo_env branch_env arg_repo arg_branch =
        MainAction.errorExit "Error: Missing GITHUB_TOKEN (via .env file)") ∧
    (pyTruthy github_token = true →
      mainStartup github_token repo_env branch_env arg_repo arg_branch =
        MainAction.collect (pyOrElse arg_repo repo_env)
          (resolveBranch branch_env arg_branch)) := by
  constructor <;> intro h <;> simp [mainStartup, h]

theorem c3_token_guard_only_witness :
    mainStartup none (some "owner/repo") none none none =
      MainAction.errorExit "Error: Missing GITHUB_TOKEN (via .env file)" ∧
    mainStartup (some "secret") none none none none = MainAction.collect none "main" := by
  refine ⟨(c3_token_guard_only none (some "owner/repo") none none none).1 rfl, ?_⟩
  exact (c3_token_guard_only (some "secret") none none none none).2 (by decide)

/-- One row of the reporter's DataFrame, restricted to the columns its
rankings and statistics touch.  `commits_behind_main` is the nullable
divergence column (a float column with NaN after CSV reload; every present
value is an integral count, so it is embedded as `Option Int` with
`none` = NaN). -/
structure Row where
  number : Nat
  title : String
  num_labels : Nat
  lines_changed : Nat
  commits_behind_main : Option Int
  time_open_days : Int
  changed_files : Nat
  comments : Nat
deriving DecidableEq, Repr

/-- Strict order on the nullable column as pandas `sort_values` (default
`na_position="last"`) ranks it: every present value precedes NaN, and NaN
ties with NaN. -/
def naLastLT (a b : Option Int) : Bool :=
  match a, b with
  | none, _ => false
  | some _, none => true
  | some x, some y => decide (x < y)

/-- The composite comparator of
`sort_values(by=["commits_behind_main", "num_labels", "lines_changed"])`:
ascending lexicographic order on the triple, NaN last in the first key. -/
def compositeLE (r s : Row) : Bool :=
  naLastLT r.commits_behind_main s.commits_behind_main ||
  (decide (r.commits_behind_main = s.commits_behind_main) &&
    (decide (r.num_labels < s.num_labels) ||
     (decide (r.num_labels = s.num_labels) && decide (r.lines_changed ≤ s.lines_changed))))

/-- The full sort underlying the composite view.  pandas sorts on several
columns with `np.lexsort`, a stable sort, so the model is the stable
`List.mergeSort`. -/
def cleanupSorted (rows : List Row) : List Row := rows.mergeSort compositeLE

/-- `top_prs = pr_df.sort_values(by=[...]).head(20)`
(src/pr-graphs.py line 193). -/
def top_prs (rows : List Row) : List Row := (cleanupSorted rows).take 20

theorem compositeLE_total (r s : Row) : compositeLE r s || compositeLE s r := by
  rcases hr : r.commits_behind_main with _ | x <;>
    rcases hs : s.commits_behind_main with _ | y <;>
      simp only [compositeLE, naLastLT, hr, hs, Bool.or_eq_true, Bool.and_eq_true,
        decide_eq_true_eq, Option.some.injEq, reduceCtorEq, false_or, true_and,
        false_and, and_false, or_false, and_true, eq_self_iff_true, true_or,
        or_self, or_true] <;>
      omega

theorem compositeLE_trans (a b c : Row) (h1 : compositeLE a b) (h2 : compositeLE b c) :
    compositeLE a c := by
  rcases ha : a.commits_behind_main with _ | x <;>
    rcases hb : b.commits_behind_main with _ | y <;>
      rcases hc : c.commits_behind_main with _ | z <;>
        simp only [compositeLE, naLastLT, ha, hb, hc, Bool.or_eq_true, Bool.and_eq_true,
          decide_eq_true_eq, Option.some.injEq, reduceCtorEq, false_or, true_and,
          false_and, and_false, or_false, and_true, eq_self_iff_true, true_or,
          or_self, or_true] at h1 h2 ⊢ <;>
        omega

/-- Claim C1: the composite cleanup-priority view is the first 20 rows of the
stable ascending sort on `(commits_behind_main, num_labels, lines_changed)`,
so the emitted sequence is lexicographically non-decreasing over that triple;
the defined behavior for a null `commits_behind_main` is `na_position="last"`:
a null first key sorts after every present value, so within the sorted
sequence the null rows form a suffix. -/
theorem c1_cleanup_priority_sorted (rows : List Row) :
    List.Pairwise (fun r s => compositeLE r s = true) (top_prs rows) ∧
    List.Pairwise (fun r s => r.commits_behind_main = none → s.commits_behind_main = none)
      (cleanupSorted rows) := by
  have hsorted : List.Pairwise (fun r s : Row => compositeLE r s = true)
      (cleanupSorted rows) :=
    List.sorted_mergeSort
      (fun x y z hx hy => compositeLE_trans x y z hx hy)
      (fun x y => compositeLE_total x y) rows
  constructor
  · exact List.Pairwise.sublist (List.take_sublist 20 _) hsorted
  · refine hsorted.imp ?_
    intro r s hle hnone
    rcases hs : s.commits_behind_main with _ | y
    · rfl
    · simp only [compositeLE, naLastLT, hnone, hs, Bool.or_eq_true, Bool.and_eq_true,
        decide_eq_true_eq, reduceCtorEq, false_or, false_and] at hle

/-- Claim C2: the composite sort is stable — two rows that agree on all three
sort keys keep their relative input order in the sorted sequence (and hence
in the head-20 view, which truncates without reordering). -/
theorem c2_cleanup_sort_stable (rows : List Row) (a b : Row)
    (h1 : a.commits_behind_main = b.commits_behind_main)
    (h2 : a.num_labels = b.num_labels)
    (h3 : a.lines_changed = b.lines_changed)
    (hsub : List.Sublist [a, b] rows) :
    List.Sublist [a, b] (cleanupSorted rows) := by
  apply List.pair_sublist_mergeSort
    (fun x y z hx hy => compositeLE_trans x y z hx hy)
    (fun x y => compositeLE_total x y) ?_ hsub
  simp [compositeLE, h1, h2, h3]

theorem c2_cleanup_sort_stable_witness :
    List.Sublist
      [⟨2, "second", 1, 5, some 3, 0, 0, 0⟩, ⟨3, "third", 1, 5, some 3, 0, 0, 0⟩]
      (cleanupSorted [⟨1, "first", 9, 9, some 9, 0, 0, 0⟩,
        ⟨2, "second", 1, 5, some 3, 0, 0, 0⟩, ⟨3, "third", 1, 5, some 3, 0, 0, 0⟩]) :=
  c2_cleanup_sort_stable _ _ _ rfl rfl rfl
    (List.Sublist.cons _ (List.Sublist.refl _))

/-- `pr_df.nsmallest(10, "num_labels")` (src/pr-graphs.py lines 164-169):
ascending sort on the single column, ties kept in first-seen order
(`keep="first"`), first 10 rows. -/
def top10_least_labels (rows : List Row) : List Row :=
  (rows.mergeSort (fun a b => decide (a.num_labels ≤ b.num_labels))).take 10

/-- `pr_df.nlargest(10, "lines_changed")` (src/pr-graphs.py lines 177-183):
descending sort on the single column, ties kept in first-seen order, first
10 rows. -/
def top10_most_lines (rows : List Row) : List Row :=
  (rows.mergeSort (fun a b => decide (b.lines_changed ≤ a.lines_changed))).take 10

/-- Claim C6: in the "fewest labels" top-10 view the `num_labels` values are
non-decreasing, and in the "most lines changed" top-10 view the
`lines_changed` values are non-increasing, for every input record set. -/
theorem c6_top10_views_monotone (rows : List Row) :
    List.Pairwise (fun x y => x ≤ y) ((top10_least_labels rows).map Row.num_labels) ∧
    List.Pairwise (fun x y => y ≤ x) ((top10_most_lines rows).map Row.lines_changed) := by
  constructor
  · rw [List.pairwise_map]
    have hsorted : List.Pairwise
        (fun a b : Row => decide (a.num_labels ≤ b.num_labels) = true)
        (rows.mergeSort (fun a b => decide (a.num_labels ≤ b.num_labels))) :=
      List.sorted_mergeSort
        (fun x y z hx hy => by
          simp only [decide_eq_true_eq] at hx hy ⊢
          omega)
        (fun x y => by
          simp only [Bool.or_eq_true, decide_eq_true_eq]
          omega) rows
    refine (List.Pairwise.sublist (List.take_sublist 10 _) hsorted).imp ?_
    intro x y h
    simpa using h
  · rw [List.pairwise_map]
    have hsorted : List.Pairwise
        (fun a b : Row => decide (b.lines_changed ≤ a.lines_changed) = true)
        (rows.mergeSort (fun a b => decide (b.lines_changed ≤ a.lines_changed))) :=
      List.sorted_mergeSort
        (fun x y z hx hy => by
          simp only [decide_eq_true_eq] at hx hy ⊢
          omega)
        (fun x y => by
          simp only [Bool.or_eq_true, decide_eq_true_eq]
          omega) rows
    refine (List.Pairwise.sublist (List.take_sublist 10 _) hsorted).imp ?_
    intro x y h
    simpa using h

/-- pandas `Series.mean()` with the default `skipna=True`: the mean of the
present (non-NaN) values, or NaN (here `none`) when no value is present.
The reporter formats this with `f"{...:.2f}"`, so an all-null column prints
the undefined marker `nan`, never `0`. -/
def seriesMean (xs : List (Option Int)) : Option ℚ :=
  let vals := xs.filterMap id
  if vals.length = 0 then none
  else some ((vals.map (fun (v : Int) => (v : ℚ))).sum / (vals.length : ℚ))

/-- `pr_df["commits_behind_main"].mean()` (src/pr-graphs.py line 159). -/
def avg_commits_behind (rows : List Row) : Option ℚ :=
  seriesMean (rows.map Row.commits_behind_main)

/-- Claim C7: each mean statistic is computed only over the non-null entries
of its column (the mean depends only on the present values), and when every
record's `commits_behind_main` is null the reported statistic is the
undefined value (`none`, printed as `nan`), not zero. -/
theorem c7_mean_over_non_null (xs : List (Option Int)) (rows : List Row) :
    seriesMean xs = seriesMean ((xs.filterMap id).map some) ∧
    ((∀ r ∈ rows, r.commits_behind_main = none) →
      avg_commits_behind rows = none ∧ avg_commits_behind rows ≠ some 0) := by
  constructor
  · simp [seriesMean, List.filterMap_map]
  · intro hall
    have hnil : (rows.map Row.commits_behind_main).filterMap id = [] := by
      rw [List.filterMap_eq_nil_iff]
      intro a ha
      obtain ⟨r, hr, rfl⟩ := List.mem_map.mp ha
      exact hall r hr
    constructor
    · simp [avg_commits_behind, seriesMean, hnil]
    · simp [avg_commits_behind, seriesMean, hnil]

theorem c7_mean_over_non_null_witness :
    seriesMean [none, some 4] = seriesMean [some (4 : Int)] ∧
    avg_commits_behind [⟨1, "t", 0, 0, none, 0, 0, 0⟩] = none ∧
    avg_commits_behind [⟨1, "t", 0, 0, none, 0, 0, 0⟩] ≠ some 0 := by
  have h := c7_mean_over_non_null [none, some 4] [⟨1, "t", 0, 0, none, 0, 0, 0⟩]
  have h2 := h.2 (by decide)
  exact ⟨h.1, h2.1, h2.2⟩

/-- `column.min()` for a pandas numeric Series: smallest element, NaN (none)
on an empty column. -/
def listMin : List Int → Option Int
  | [] => none
  | x :: xs => some (xs.foldl min x)

/-- `column.max()` for a pandas numeric Series. -/
def listMax : List Int → Option Int
  | [] => none
  | x :: xs => some (xs.foldl max x)

/-- Elementwise float division as numpy performs it: division by zero does
not raise, it silently yields a non-finite value (NaN for the 0/0 case that
arises here); `none` stands for that undefined result. -/
def floatDiv (a b : ℚ) : Option ℚ := if b = 0 then none else some (a / b)

/-- `normalize_column` (src/pr-graphs.py lines 40-41):
`(column - column.min()) / (column.max() - column.min())`, elementwise over
the column. -/
def normalize_column (col : List Int) : List (Option ℚ) :=
  match listMin col, listMax col with
  | some m, some M =>
    col.map (fun (v : Int) => floatDiv ((v : ℚ) - (m : ℚ)) ((M : ℚ) - (m : ℚ)))
  | _, _ => []

/-- Claim C8 counterexample: on a single-record dataset the zero-division
case is not handled with a defined result — every entry of the normalized
column is the undefined value NaN (`none`), not a defined normalized value
such as 0 or 1. -/
theorem c8_single_record_counterexample :
    normalize_column [5] = [none] ∧
    ∀ x ∈ normalize_column [5], x.isSome = false := by
  have h : normalize_column [5] = [none] := by
    show [floatDiv ((5 : ℚ) - (5 : ℚ)) ((5 : ℚ) - (5 : ℚ))] = [none]
    simp [floatDiv]
  refine ⟨h, ?_⟩
  rw [h]
  intro x hx
  rw [List.mem_singleton.mp hx]
  rfl

/-- Claim C8 (amended): min-max normalization never raises an unhandled
arithmetic error — the embedded elementwise division is total and the
output column always has the input's length — but the `max == min` case is
not explicitly handled: there every entry is the undefined NaN value rather
than a defined normalized number; when `max ≠ min` every entry is defined. -/
theorem c8_normalize_total (col : List Int) :
    (normalize_column col).length = col.length ∧
    (∀ m M, listMin col = some m → listMax col = some M → M = m →
      ∀ x ∈ normalize_column col, x = none) ∧
    (∀ m M, listMin col = some m → listMax col = some M → M ≠ m →
      ∀ x ∈ normalize_column col, x.isSome = true) := by
  cases col with
  | nil =>
    refine ⟨rfl, ?_, ?_⟩ <;> intro m M hm hM <;> cases hm
  | cons a as =>
    refine ⟨by simp only [normalize_column, listMin, listMax, List.length_map], ?_, ?_⟩
    · intro m M hm hM hMm x hx
      simp only [listMin, Option.some.injEq] at hm
      simp only [listMax, Option.some.injEq] at hM
      simp only [normalize_column, listMin, listMax, List.mem_map] at hx
      obtain ⟨v, hv, rfl⟩ := hx
      rw [hm, hM, hMm, sub_self]
      simp [floatDiv]
    · intro m M hm hM hMm x hx
      simp only [listMin, Option.some.injEq] at hm
      simp only [listMax, Option.some.injEq] at hM
      simp only [normalize_column, listMin, listMax, List.mem_map] at hx
      obtain ⟨v, hv, rfl⟩ := hx
      rw [hm, hM]
      have hne : (M : ℚ) - (m : ℚ) ≠ 0 := by
        rw [sub_ne_zero]
        exact_mod_cast hMm
      simp [floatDiv, hne]

theorem c8_normalize_total_witness :
    (normalize_column [5]).length = 1 ∧
    (∀ x ∈ normalize_column [5], x = none) ∧
    (∀ x ∈ normalize_column [1, 3], x.isSome = true) := by
  have h1 := c8_normalize_total [5]
  have h2 := c8_normalize_total [1, 3]
  exact ⟨h1.1, h1.2.1 5 5 rfl rfl rfl, h2.2.2 1 3 rfl rfl (by decide)⟩

